import Mathlib

/-!
# Verification of the coupled time-integration engine (cofs/thetis)

Shallow embedding of the scheduling and numerical-recipe logic of
`cofs/coupledTimeIntegrator.py`, `cofs/momentum_eq.py` and
`thetis/timeintegrator.py`, together with proofs of the frozen claims
about the dependency-update pipeline, the SSP stage tables, the
sub-cycling parameters and the error behaviour of the steppers.

Stateful Python methods are embedded as functions returning an event
trace (`List Event`) plus an optional Python error (`PRes`); a statement
that reads an unbound name produces a `PyErr.nameError` and aborts the
remainder of the method, mirroring Python's exception semantics.
Machine floats are modelled as exact rationals (`ℚ`).
-/

/-- A Python runtime error: either a `NameError` for an unbound name, or a
plain `Exception` raised with a message. -/
inductive PyErr where
  | nameError (name : String)
  | exception (msg : String)
  deriving DecidableEq, Repr

/-- Observable external calls made by the dependency-update pipeline of
`coupledTimeIntegrator` (one constructor per helper routine invoked). -/
inductive Event where
  | elev3dProj          -- copy2dFieldTo3d(elev2d, elev3d) + elev3d_to_CG projection
  | movingMesh          -- updateCoordinates + computeElemHeight + copy3dFieldTo2d
  | vertDiffSolve       -- timeStepper_vmom3d.advance (vertical diffusion of uv3d)
  | coupling2d3d        -- _update2DCoupling body
  | vertVelocity        -- computeVertVelocity
  | preprocess          -- glsModel.preprocess()
  | psiSolve            -- psi3d stepper advance/solveStage
  | tkeSolve            -- tke3d stepper advance/solveStage
  | limiterTke          -- tracerLimiter.apply(tke3d)
  | limiterPsi          -- tracerLimiter.apply(psi3d)
  | postprocess         -- glsModel.postprocess()
  | meshVelocity        -- computeMeshVelocity
  | bottomFriction      -- computeBottomFriction (guarded by useBottomFriction)
  | parabolicViscosity  -- computeParabolicViscosity (guarded by useParabolicViscosity)
  | baroclinicHead      -- computeBaroclinicHead (guarded by baroclinic)
  | velMagnitude        -- computeVelMagnitude
  | uvP1Projection      -- uvP1_projector.project()
  | smagorinsky         -- smagorinskyViscosity (guarded by smagorinskyFactor presence)
  | jumpDiffusivity     -- computeHorizJumpDiffusivity (guarded by saltJumpDiffFactor)
  deriving DecidableEq, Repr, Inhabited

/-- Configuration switches read by the coupled integrators
(`self.options` / the solver context, §6 of the spec).  The two factor
options are `None`-able values in the source; only their presence is
tested (`is not None`), modelled with `Option ℚ`. -/
structure Options where
  useALEMovingMesh : Bool
  solveVertDiffusion : Bool
  useBottomFriction : Bool
  useParabolicViscosity : Bool
  baroclinic : Bool
  useTurbulence : Bool
  useLimiterForTracers : Bool
  solveSalt : Bool
  smagorinskyFactor : Option ℚ
  saltJumpDiffFactor : Option ℚ
  deriving DecidableEq, Repr

/-- The five keyword flags of `_updateAllDependencies`; each defaults to
`False` in the Python signature. -/
structure DepFlags where
  do2DCoupling : Bool := false
  doVertDiffusion : Bool := false
  doALEUpdate : Bool := false
  doStabParams : Bool := false
  doTurbulence : Bool := false
  deriving DecidableEq, Repr

/-- Result of running an (embedded) Python method body: the trace of
external calls it performed, and the error it raised, if any. -/
structure PRes where
  events : List Event := []
  err : Option PyErr := none
  deriving DecidableEq, Repr

/-- Sequencing of two method bodies: if the first raised, the second never
runs (Python exception propagation). -/
def PRes.seq (a b : PRes) : PRes :=
  match a.err with
  | some _ => a
  | none => ⟨a.events ++ b.events, b.err⟩

/-- A method body that performs nothing (a skipped `if` branch). -/
def PRes.skip : PRes := ⟨[], none⟩

namespace coupledTimeIntegrator

/-- `_update3dElevation` (coupledTimeIntegrator.py:21-25): copies 2D
elevation to 3D and projects it; always performed. -/
def update3dElevation : PRes := ⟨[.elev3dProj], none⟩

/-- `_updateVerticalVelocity` (:27-31): recomputes `w3d`. -/
def updateVerticalVelocity : PRes := ⟨[.vertVelocity], none⟩

/-- `_updateMovingMesh` (:33-41): recomputes mesh vertical coordinates and
element heights, only if `options.useALEMovingMesh`. -/
def updateMovingMesh (o : Options) : PRes :=
  ⟨if o.useALEMovingMesh then [.movingMesh] else [], none⟩

/-- `_updateBottomFriction` (:43-59): bottom friction if
`useBottomFriction`, then parabolic viscosity if `useParabolicViscosity`. -/
def updateBottomFriction (o : Options) : PRes :=
  ⟨(if o.useBottomFriction then [.bottomFriction] else []) ++
   (if o.useParabolicViscosity then [.parabolicViscosity] else []), none⟩

/-- `_update2DCoupling` (:61-89): the 2D-3D velocity coupling body. -/
def update2DCoupling : PRes := ⟨[.coupling2d3d], none⟩

/-- `_updateMeshVelocity` (:91-100): ALE mesh velocity, only if
`options.useALEMovingMesh`. -/
def updateMeshVelocity (o : Options) : PRes :=
  ⟨if o.useALEMovingMesh then [.meshVelocity] else [], none⟩

/-- `_updateBaroclinicity` (:102-108): baroclinic head, only if
`options.baroclinic`. -/
def updateBaroclinicity (o : Options) : PRes :=
  ⟨if o.baroclinic then [.baroclinicHead] else [], none⟩

/-- `_updateTurbulence` (:110-121): if `options.useTurbulence` it runs
`glsModel.preprocess()` and then evaluates
`self.timeStepper_psi3d.advance(t, ...)`.  The name `t` is bound neither
in the method (whose only parameter is `self`) nor at module level, so
evaluating the argument raises `NameError: t` before the psi stepper is
invoked; the tke advance, the limiters and `postprocess` are never
reached. -/
def updateTurbulence (o : Options) : PRes :=
  if o.useTurbulence then ⟨[.preprocess], some (.nameError "t")⟩ else .skip

/-- The `vert_diffusion` block of `_updateAllDependencies` (:150-152): if
the flag and `options.solveVertDiffusion` are both set it evaluates
`self.timeStepper_vmom3d.advance(t, ...)`; `t` is unbound in that scope,
so the block raises `NameError: t` without invoking the stepper. -/
def vertDiffusionBlock (doVertDiffusion : Bool) (o : Options) : PRes :=
  if doVertDiffusion && o.solveVertDiffusion then
    ⟨[], some (.nameError "t")⟩
  else .skip

/-- `_updateStabilizationParams` (:123-138): velocity magnitude, P1
projection, then Smagorinsky viscosity and salt jump diffusivity when the
corresponding factors are configured (`is not None`). -/
def updateStabilizationParams (o : Options) : PRes :=
  ⟨[.velMagnitude, .uvP1Projection] ++
   (if o.smagorinskyFactor.isSome then [.smagorinsky] else []) ++
   (if o.saltJumpDiffFactor.isSome then [.jumpDiffusivity] else []), none⟩

/-- `_updateAllDependencies` (:140-162): the dependency-update pipeline,
sequencing the steps exactly as the source does. -/
def updateAllDependencies (fl : DepFlags) (o : Options) : PRes :=
  update3dElevation.seq
  ((if fl.doALEUpdate then updateMovingMesh o else .skip).seq
  ((vertDiffusionBlock fl.doVertDiffusion o).seq
  ((if fl.do2DCoupling then update2DCoupling else .skip).seq
  (updateVerticalVelocity.seq
  ((if fl.doTurbulence then updateTurbulence o else .skip).seq
  ((updateMeshVelocity o).seq
  ((updateBottomFriction o).seq
  ((updateBaroclinicity o).seq
  (if fl.doStabParams then updateStabilizationParams o else .skip)))))))))

end coupledTimeIntegrator

/-- The ordered, flag-gated step list of the dependency pipeline as the
claim states it (spec §4.2 / claim C2): each flagged step performed iff
its flag and its configuration switch are set, in the stated order.  Used
only to be compared against `coupledTimeIntegrator.updateAllDependencies`,
which is translated from the source. -/
def specPipelineEvents (fl : DepFlags) (o : Options) : List Event :=
  [.elev3dProj] ++
  (if fl.doALEUpdate && o.useALEMovingMesh then [.movingMesh] else []) ++
  (if fl.doVertDiffusion && o.solveVertDiffusion then [.vertDiffSolve] else []) ++
  (if fl.do2DCoupling then [.coupling2d3d] else []) ++
  [.vertVelocity] ++
  (if fl.doTurbulence && o.useTurbulence then
    [.preprocess, .psiSolve, .tkeSolve] ++
    (if o.useLimiterForTracers then [.limiterTke, .limiterPsi] else []) ++
    [.postprocess]
   else []) ++
  (if o.useALEMovingMesh then [.meshVelocity] else []) ++
  (if o.useBottomFriction then [.bottomFriction] else []) ++
  (if o.useParabolicViscosity then [.parabolicViscosity] else []) ++
  (if o.baroclinic then [.baroclinicHead] else []) ++
  (if fl.doStabParams then
    [.velMagnitude, .uvP1Projection] ++
    (if o.smagorinskyFactor.isSome then [.smagorinsky] else []) ++
    (if o.saltJumpDiffFactor.isSome then [.jumpDiffusivity] else [])
   else [])

namespace coupledSSPRKSync

/-- `coupledSSPRKSync.__init__` (:204): length of each step as a fraction
of the outer dt. -/
def dt_frac : List ℚ := [1, 1/4, 2/3]

/-- `coupledSSPRKSync.__init__` (:206): start of each step as a fraction
of the outer dt. -/
def start_frac : List ℚ := [0, 1/4, 1/3]

/-- `coupledSSPRKSync.__init__` (:208-211): weight multiplying `u_n` in the
weighted average that forms each stage's start value, built by
`stage_w = [1 - start_frac[0]]` followed by the loop over `i in
range(1, len(dt_frac))` appending
`(start_frac[i-1] + dt_frac[i-1]) * (1 - start_frac[i])`. -/
def stage_w : List ℚ :=
  (List.range' 1 (dt_frac.length - 1)).foldl
    (fun acc i =>
      let prev_end_time := start_frac.getD (i - 1) 0 + dt_frac.getD (i - 1) 0
      acc ++ [prev_end_time * (1 - start_frac.getD i 0)])
    [1 - start_frac.getD 0 0]

/-- `coupledSSPRKSync.initialize` (:226-233): number of 2D sub-steps per
stage, `M = int(np.ceil(f * dt / dt_2d))` for each `f` in `dt_frac` (the
quantities are positive, so `int(np.ceil(x))` is the ceiling). -/
def M (dt dt2d : ℚ) : List ℤ :=
  dt_frac.map fun f => ⌈f * dt / dt2d⌉

/-- `coupledSSPRKSync.initialize` (:226-233): the per-stage 2D time step,
`dt = f * dt / M` for each `f` in `dt_frac`. -/
def dt_2d (dt dt2d : ℚ) : List ℚ :=
  dt_frac.map fun f => f * dt / ((⌈f * dt / dt2d⌉ : ℤ) : ℚ)

end coupledSSPRKSync

namespace coupledSSPRKSemiImplicit

/-- `coupledSSPRKSemiImplicit.__init__` (:449): per-stage dt fractions. -/
def dt_frac : List ℚ := [1, 1/4, 2/3]

/-- `coupledSSPRKSemiImplicit.__init__` (:451): per-stage start fractions. -/
def start_frac : List ℚ := [0, 1/4, 1/3]

/-- `coupledSSPRKSemiImplicit.__init__` (:453-456): the stage-weight list,
built exactly as in `coupledSSPRKSync.__init__`. -/
def stage_w : List ℚ :=
  (List.range' 1 (dt_frac.length - 1)).foldl
    (fun acc i =>
      let prev_end_time := start_frac.getD (i - 1) 0 + dt_frac.getD (i - 1) 0
      acc ++ [prev_end_time * (1 - start_frac.getD i 0)])
    [1 - start_frac.getD 0 0]

/-- `coupledSSPRKSemiImplicit.initialize` (:471-478): per-stage 2D sub-step
counts. -/
def M (dt dt2d : ℚ) : List ℤ :=
  dt_frac.map fun f => ⌈f * dt / dt2d⌉

/-- `coupledSSPRKSemiImplicit.initialize` (:471-478): per-stage 2D time
steps. -/
def dt_2d (dt dt2d : ℚ) : List ℚ :=
  dt_frac.map fun f => f * dt / ((⌈f * dt / dt2d⌉ : ℤ) : ℚ)

end coupledSSPRKSemiImplicit

namespace coupledSSPIMEX

/-- `coupledSSPIMEX.__init__` (:283-347): the sub-steppers constructed, in
order, as a list of attribute names; when `options.solveVertDiffusion` is
set the constructor raises (`raise Exception(...)`, :327-328) before the
vertical-momentum stepper (and any turbulence stepper) is created. -/
def init (o : Options) : Except PyErr (List String) :=
  let steppers := ["timeStepper2d", "timeStepper_mom3d"] ++
    (if o.solveSalt then ["timeStepper_salt3d"] else [])
  if o.solveVertDiffusion then
    .error (.exception "vert mom eq should not exist for this time integrator")
  else
    .ok (steppers ++
      (if o.useTurbulence then ["timeStepper_tke3d", "timeStepper_psi3d"] else []))

/-- `coupledSSPIMEX.advance` (:395-398): the dependency-flag tuple passed
to `_updateAllDependencies` at stage `k` of `nStages`; `lastStep` is
`k == nStages - 1` (:365), `doVertDiffusion` is passed as `False` and
`doTurbulence` is left at its `False` default. -/
def pipelineFlags (nStages k : ℕ) : DepFlags :=
  let lastStep := k == nStages - 1
  { do2DCoupling := lastStep
    doVertDiffusion := false
    doALEUpdate := lastStep
    doStabParams := lastStep
    doTurbulence := false }

/-- `coupledSSPIMEX.advance` (:364-398): the pipeline is invoked once per
stage `k in range(nStages)` with the flags of `pipelineFlags`. -/
def advancePipelineCalls (nStages : ℕ) : List DepFlags :=
  (List.range nStages).map (pipelineFlags nStages)

/-- The `turbulence` block of `coupledSSPIMEX.advance` (:385-394), run at
every stage when `options.useTurbulence`: psi stage solve, tke stage
solve, limiter applications if configured, then `postprocess()` followed
by `preprocess()  # for next iteration`.  Here `t` is a parameter of
`advance`, so no name error occurs. -/
def turbulenceStage (o : Options) : List Event :=
  if o.useTurbulence then
    [.psiSolve, .tkeSolve] ++
    (if o.useLimiterForTracers then [.limiterTke, .limiterPsi] else []) ++
    [.postprocess, .preprocess]
  else []

end coupledSSPIMEX

namespace momentum_eq

/-- The weak-form contributions assembled by
`MomentumEquation.horizontal_advection` (momentum_eq.py:122-189), one
constructor per `f +=`-ed integral group. -/
inductive AdvTerm where
  | interiorAdvection   -- -(Dx(test)·u u) dx volume term (:127-130)
  | interfaceFlux       -- upwinded interface flux over dS_v + dS_h (:137-140)
  | laxFriedrichsP1     -- LF term, gamma from avg(uv_p1) (:143-145,150-151)
  | laxFriedrichsMag    -- LF term, gamma from avg(uv_mag) (:146-147,150-151)
  | bndClosedLF         -- LF penalty on an unspecified boundary (:155-161)
  | bndFlux             -- prescribed normal-flux boundary term (:162-176)
  | bndFluxLF           -- LF penalty of the flux boundary term (:177-181)
  | surfBottomFlux      -- closed-bed/symmetric-surface term (:184-187)
  | nonByPartsAdvection -- inner(div(outer(u,u)), test) dx (:189)
  deriving DecidableEq, Repr

/-- The configuration of a `MomentumEquation` relevant to
`horizontal_advection`: the `nonlin`, `horiz_advection_by_parts` and
`horizontal_dg` attributes, and for each boundary marker the result of
`self.bnd_functions.get(bnd_marker)` — `none` for an unspecified boundary,
otherwise the set of keys of the functions dict. -/
structure Config where
  nonlin : Bool
  horiz_advection_by_parts : Bool
  horizontal_dg : Bool
  boundary_markers : List (Option (List String))
  deriving DecidableEq, Repr

/-- The Lax-Friedrichs stabilization block (:142-151).  The guard at :142
is `lax_friedrichs_factor is not None and uv_mag is not None`; inside, the
`else: raise Exception('either uv_p1 or uv_mag must be given')` branch
(:148-149) can only be reached when both `uv_p1` and `uv_mag` are `None`,
which the guard already excludes. -/
def lf_interior (lax_friedrichs_factor uv_mag uv_p1 : Option ℚ) :
    Except PyErr (List AdvTerm) :=
  if lax_friedrichs_factor.isSome && uv_mag.isSome then
    if uv_p1.isSome then .ok [.laxFriedrichsP1]
    else if uv_mag.isSome then .ok [.laxFriedrichsMag]
    else .error (.exception "either uv_p1 or uv_mag must be given")
  else .ok []

/-- One iteration of the boundary loop (:152-181). -/
def bndTerm (nonlin : Bool) (lax_friedrichs_factor : Option ℚ)
    (funcs : Option (List String)) : List AdvTerm :=
  match funcs with
  | none => if lax_friedrichs_factor.isSome then [.bndClosedLF] else []
  | some keys =>
    if keys.contains "flux" then
      if nonlin then
        [.bndFlux] ++ (if lax_friedrichs_factor.isSome then [.bndFluxLF] else [])
      else []
    else []

/-- `MomentumEquation.horizontal_advection` (:122-189) as the list of
assembled term groups (or the raised error): returns nothing if not
`nonlin`; in the by-parts branch assembles the volume term, then (if
`horizontal_dg`) the interface flux, the Lax-Friedrichs block and the
boundary terms, and finally the surface/bottom closure term. -/
def horizontal_advection (cfg : Config)
    (lax_friedrichs_factor uv_mag uv_p1 : Option ℚ) :
    Except PyErr (List AdvTerm) :=
  if !cfg.nonlin then .ok []
  else if cfg.horiz_advection_by_parts then
    match (if cfg.horizontal_dg then
            (lf_interior lax_friedrichs_factor uv_mag uv_p1).map fun lf =>
              [.interfaceFlux] ++ lf ++
              (cfg.boundary_markers.flatMap (bndTerm cfg.nonlin lax_friedrichs_factor))
           else .ok []) with
    | .error e => .error e
    | .ok dgTerms => .ok ([.interiorAdvection] ++ dgTerms ++ [.surfBottomFlux])
  else .ok [.nonByPartsAdvection]

end momentum_eq

namespace ForwardEuler

/-- The mutable state of a `ForwardEuler` stepper
(thetis/timeintegrator.py:48-95): the fixed time step, the solution
handle, the lagged solution copy, and the field dict with its lagged copy
(each abstracted to a single rational value). -/
structure State where
  dt : ℚ
  solution : ℚ
  solution_old : ℚ
  fields : ℚ
  fields_old : ℚ
  deriving DecidableEq, Repr

/-- The names bound in the local scope of `ForwardEuler.advance`
(timeintegrator.py:86): its parameters `self`, `t`, `update_forcings`. -/
def advanceLocalNames : List String := ["self", "t", "update_forcings"]

/-- Module-level plain names of `thetis/timeintegrator.py`: the classes it
defines, plus `ABCMeta`/`abstractproperty` from `abc` and
`absolute_import`.  Modelled from the spec: the file also star-imports
`.utility`, which is not under src/; per spec §6 the solver context
provides `dt` only as an attribute (`solver.dt`), never as a module-level
plain name, so `dt` is not among the imported names. -/
def moduleNames : List String :=
  ["TimeIntegratorBase", "TimeIntegrator", "ForwardEuler", "CrankNicolson",
   "SteadyState", "PressureProjectionPicard", "LeapFrogAM3", "SSPRK22ALE",
   "TwoStageTrapezoid", "ABCMeta", "abstractproperty", "absolute_import"]

/-- `ForwardEuler.advance(t, update_forcings)` (timeintegrator.py:86-95).
The first statement, `self.dt_const.assign(dt)`, evaluates the plain name
`dt`; when that name is bound nowhere in scope, a `NameError` is raised
there, before `update_forcings` is called (:89-90), before
`solution_old.assign(solution)` (:91), before the solve (:92) and before
the `fields_old` shift (:94-95).  `solveResult` stands for the value the
linear solver would write into `solution` in the non-raising branch; the
third component lists the times at which `update_forcings` is invoked. -/
def advance (solveResult : ℚ) (st : State) (t : ℚ) :
    Except PyErr Unit × State × List ℚ :=
  if (advanceLocalNames ++ moduleNames).contains "dt" then
    (.ok (), { st with solution_old := st.solution, solution := solveResult,
                       fields_old := st.fields }, [t + st.dt])
  else
    (.error (.nameError "dt"), st, [])

end ForwardEuler

/-- The five coupled recipes of `cofs/coupledTimeIntegrator.py`. -/
inductive Recipe where
  | ssprkSync | sspimex | ssprkSemiImplicit | ssprkSingleMode | ssprk
  deriving DecidableEq, Repr

/-- Modelled from the spec: the single-equation steppers used by the
recipes (`SSPRK33`, `SSPRK33Stage`, `CrankNicolson`, `SSPIMEX`,
`macroTimeStepIntegrator` of `cofs/timeIntegrator.py`) are not under
src/.  Per spec §3 a stepper is `uninitialized` or `ready`, and per §9
"some steppers auto-initialize lazily, others assume `initialize` was
called explicitly and fail otherwise"; this type names the two
behaviours a missing stepper may have on a first call that precedes its
explicit initialization. -/
inductive StepperPolicy where
  | lazyFirstCall   -- seeds its lagged state from the current field, then solves
  | strict          -- raises before any solve is issued
  deriving DecidableEq, Repr

/-- Outcome of calling a recipe's `advance` before its `initialize`. -/
inductive UninitAdvanceOutcome where
  | autoInitThenRun   -- behaves as initialize followed by advance
  | failed            -- an error is raised before any solve completes
  | ranUninitialized  -- a solve completed on uninitialized lagged state
  deriving DecidableEq, Repr

/-- What each recipe's `advance` does when called before `initialize`.
`coupledSSPRKSync.advance` (:238-239), `coupledSSPIMEX.advance`
(:361-362) and `coupledSSPRKSemiImplicit.advance` (:483-484) begin with
`if not self._initialized: self.initialize()` and so auto-initialize.
`coupledSSPRKSingleMode.advance` (:576-597) and `coupledSSPRK.advance`
(:656-682) have no such guard: their first action is a sub-stepper call
(`solveStage` / `timeStepper2d.advance`), whose behaviour on an
uninitialized stepper is the spec-modelled `StepperPolicy` — either the
stepper seeds itself first (so the call behaves as initialize-then-run)
or it raises. -/
def advanceBeforeInit : Recipe → StepperPolicy → UninitAdvanceOutcome
  | .ssprkSync, _ => .autoInitThenRun
  | .sspimex, _ => .autoInitThenRun
  | .ssprkSemiImplicit, _ => .autoInitThenRun
  | .ssprkSingleMode, .lazyFirstCall => .autoInitThenRun
  | .ssprkSingleMode, .strict => .failed
  | .ssprk, .lazyFirstCall => .autoInitThenRun
  | .ssprk, .strict => .failed

/-- Core fact behind the sub-cycling invariant: for positive `f`, `dt`,
`dt2d`, the ceiling-derived sub-step count reproduces `f * dt` exactly and
the resulting inner step does not exceed the target. -/
theorem subcycle_exact (f dt dt2d : ℚ) (hf : 0 < f) (hdt : 0 < dt)
    (h2d : 0 < dt2d) :
    ((⌈f * dt / dt2d⌉ : ℤ) : ℚ) * (f * dt / ((⌈f * dt / dt2d⌉ : ℤ) : ℚ)) =
        f * dt ∧
    f * dt / ((⌈f * dt / dt2d⌉ : ℤ) : ℚ) ≤ dt2d := by
  have hr : (0 : ℚ) < f * dt / dt2d := by positivity
  have hc : (0 : ℚ) < ((⌈f * dt / dt2d⌉ : ℤ) : ℚ) := by
    exact_mod_cast Int.ceil_pos.mpr hr
  constructor
  · rw [mul_comm, div_mul_cancel₀ _ (ne_of_gt hc)]
  · rw [div_le_iff₀ hc]
    calc f * dt = (f * dt / dt2d) * dt2d := (div_mul_cancel₀ _ (ne_of_gt h2d)).symm
      _ ≤ ((⌈f * dt / dt2d⌉ : ℤ) : ℚ) * dt2d :=
          mul_le_mul_of_nonneg_right (Int.le_ceil _) h2d.le
      _ = dt2d * ((⌈f * dt / dt2d⌉ : ℤ) : ℚ) := mul_comm _ _

/-- C1: for every stage `k` of the sub-cycling 3-stage SSP recipes
(`coupledSSPRKSync`, `coupledSSPRKSemiImplicit`) with positive outer step
and positive barotropic target, `initialize` computes
`M[k] = ceil(dt_frac[k] * dt / dt_2d_target)` and
`dt_inner[k] = dt_frac[k] * dt / M[k]`, so `M[k] * dt_inner[k]` equals
`dt_frac[k] * dt` exactly and `dt_inner[k] <= dt_2d_target`; for
`dt = 10`, `dt_2d_target = 3` this gives `M = [4, 1, 3]` and
`dt_inner = [5/2, 5/2, 20/9]`. -/
theorem C1_subcycle_params (dt dt2d : ℚ) (hdt : 0 < dt) (h2d : 0 < dt2d) :
    (∀ k < 3,
      (coupledSSPRKSync.M dt dt2d).getD k 0 =
        ⌈coupledSSPRKSync.dt_frac.getD k 0 * dt / dt2d⌉ ∧
      (((coupledSSPRKSync.M dt dt2d).getD k 0 : ℤ) : ℚ) *
          (coupledSSPRKSync.dt_2d dt dt2d).getD k 0 =
        coupledSSPRKSync.dt_frac.getD k 0 * dt ∧
      (coupledSSPRKSync.dt_2d dt dt2d).getD k 0 ≤ dt2d) ∧
    (∀ k < 3,
      (coupledSSPRKSemiImplicit.M dt dt2d).getD k 0 =
        ⌈coupledSSPRKSemiImplicit.dt_frac.getD k 0 * dt / dt2d⌉ ∧
      (((coupledSSPRKSemiImplicit.M dt dt2d).getD k 0 : ℤ) : ℚ) *
          (coupledSSPRKSemiImplicit.dt_2d dt dt2d).getD k 0 =
        coupledSSPRKSemiImplicit.dt_frac.getD k 0 * dt ∧
      (coupledSSPRKSemiImplicit.dt_2d dt dt2d).getD k 0 ≤ dt2d) ∧
    coupledSSPRKSync.M 10 3 = [4, 1, 3] ∧
    coupledSSPRKSync.dt_2d 10 3 = [5/2, 5/2, 20/9] ∧
    coupledSSPRKSemiImplicit.M 10 3 = [4, 1, 3] ∧
    coupledSSPRKSemiImplicit.dt_2d 10 3 = [5/2, 5/2, 20/9] := by
  have hc1 : ⌈(10:ℚ)/3⌉ = 4 := by rw [Int.ceil_eq_iff]; norm_num
  have hc2 : ⌈(5:ℚ)/6⌉ = 1 := by rw [Int.ceil_eq_iff]; norm_num
  have hc3 : ⌈(20:ℚ)/9⌉ = 3 := by rw [Int.ceil_eq_iff]; norm_num
  refine ⟨?_, ?_,
    by norm_num [coupledSSPRKSync.M, coupledSSPRKSync.dt_frac, hc1, hc2, hc3],
    by norm_num [coupledSSPRKSync.dt_2d, coupledSSPRKSync.dt_frac, hc1, hc2, hc3],
    by norm_num [coupledSSPRKSemiImplicit.M, coupledSSPRKSemiImplicit.dt_frac,
      hc1, hc2, hc3],
    by norm_num [coupledSSPRKSemiImplicit.dt_2d, coupledSSPRKSemiImplicit.dt_frac,
      hc1, hc2, hc3]⟩
  · intro k hk
    interval_cases k
    · exact ⟨rfl, (subcycle_exact 1 dt dt2d one_pos hdt h2d).1,
        (subcycle_exact 1 dt dt2d one_pos hdt h2d).2⟩
    · exact ⟨rfl, (subcycle_exact (1/4) dt dt2d (by norm_num) hdt h2d).1,
        (subcycle_exact (1/4) dt dt2d (by norm_num) hdt h2d).2⟩
    · exact ⟨rfl, (subcycle_exact (2/3) dt dt2d (by norm_num) hdt h2d).1,
        (subcycle_exact (2/3) dt dt2d (by norm_num) hdt h2d).2⟩
  · intro k hk
    interval_cases k
    · exact ⟨rfl, (subcycle_exact 1 dt dt2d one_pos hdt h2d).1,
        (subcycle_exact 1 dt dt2d one_pos hdt h2d).2⟩
    · exact ⟨rfl, (subcycle_exact (1/4) dt dt2d (by norm_num) hdt h2d).1,
        (subcycle_exact (1/4) dt dt2d (by norm_num) hdt h2d).2⟩
    · exact ⟨rfl, (subcycle_exact (2/3) dt dt2d (by norm_num) hdt h2d).1,
        (subcycle_exact (2/3) dt dt2d (by norm_num) hdt h2d).2⟩

/-- Witness for C1 at the concrete scenario `dt = 10`, `dt_2d = 3`. -/
theorem C1_subcycle_params_witness :
    (0 : ℚ) < 10 ∧ (0 : ℚ) < 3 ∧
    coupledSSPRKSync.M 10 3 = [4, 1, 3] ∧
    coupledSSPRKSync.dt_2d 10 3 = [5/2, 5/2, 20/9] :=
  ⟨by norm_num, by norm_num,
   (C1_subcycle_params 10 3 (by norm_num) (by norm_num)).2.2.1,
   (C1_subcycle_params 10 3 (by norm_num) (by norm_num)).2.2.2.1⟩

/-- C3 fails on the code: the stage weights computed at construction are
`[1, 3/4, 1/3]`, so `stage_w[1]` is `0.75` (not approximately `0.1875`)
and `stage_w[2]` is `1/3` (not approximately `0.5556`). -/
theorem C3_stage_w_counterexample :
    coupledSSPRKSync.stage_w.getD 1 0 = 3/4 ∧
    coupledSSPRKSync.stage_w.getD 2 0 = 1/3 ∧
    ¬ (|coupledSSPRKSync.stage_w.getD 1 0 - 0.1875| ≤ 1/10 ∧
       |coupledSSPRKSync.stage_w.getD 2 0 - 0.5556| ≤ 1/10) := by
  norm_num [coupledSSPRKSync.stage_w, coupledSSPRKSync.dt_frac,
    coupledSSPRKSync.start_frac, List.range', abs_le]

/-- C3 (amended): the stage weights computed at construction of both
3-stage SSP recipes from `dt_frac = [1, 1/4, 2/3]` and
`start_frac = [0, 1/4, 1/3]` are `[1, 3/4, 1/3]`
(approximately `[1.0, 0.75, 0.3333]`). -/
theorem C3_stage_w_values :
    coupledSSPRKSync.stage_w = [1, 3/4, 1/3] ∧
    coupledSSPRKSemiImplicit.stage_w = [1, 3/4, 1/3] := by
  constructor
  · norm_num [coupledSSPRKSync.stage_w, coupledSSPRKSync.dt_frac,
      coupledSSPRKSync.start_frac, List.range']
  · norm_num [coupledSSPRKSemiImplicit.stage_w, coupledSSPRKSemiImplicit.dt_frac,
      coupledSSPRKSemiImplicit.start_frac, List.range']

/-- C4: in both 3-stage SSP recipe constructors the stage-weight table
satisfies `stage_w[0] = 1 - start_frac[0]` and, for each `k > 0`,
`stage_w[k] = (start_frac[k-1] + dt_frac[k-1]) * (1 - start_frac[k])`,
with `dt_frac = [1, 1/4, 2/3]` and `start_frac = [0, 1/4, 1/3]`. -/
theorem C4_stage_w_recurrence :
    (coupledSSPRKSync.dt_frac = [1, 1/4, 2/3] ∧
     coupledSSPRKSync.start_frac = [0, 1/4, 1/3] ∧
     coupledSSPRKSync.stage_w.getD 0 0 =
       1 - coupledSSPRKSync.start_frac.getD 0 0 ∧
     coupledSSPRKSync.stage_w.getD 1 0 =
       (coupledSSPRKSync.start_frac.getD 0 0 + coupledSSPRKSync.dt_frac.getD 0 0) *
         (1 - coupledSSPRKSync.start_frac.getD 1 0) ∧
     coupledSSPRKSync.stage_w.getD 2 0 =
       (coupledSSPRKSync.start_frac.getD 1 0 + coupledSSPRKSync.dt_frac.getD 1 0) *
         (1 - coupledSSPRKSync.start_frac.getD 2 0)) ∧
    (coupledSSPRKSemiImplicit.dt_frac = [1, 1/4, 2/3] ∧
     coupledSSPRKSemiImplicit.start_frac = [0, 1/4, 1/3] ∧
     coupledSSPRKSemiImplicit.stage_w.getD 0 0 =
       1 - coupledSSPRKSemiImplicit.start_frac.getD 0 0 ∧
     coupledSSPRKSemiImplicit.stage_w.getD 1 0 =
       (coupledSSPRKSemiImplicit.start_frac.getD 0 0 +
         coupledSSPRKSemiImplicit.dt_frac.getD 0 0) *
         (1 - coupledSSPRKSemiImplicit.start_frac.getD 1 0) ∧
     coupledSSPRKSemiImplicit.stage_w.getD 2 0 =
       (coupledSSPRKSemiImplicit.start_frac.getD 1 0 +
         coupledSSPRKSemiImplicit.dt_frac.getD 1 0) *
         (1 - coupledSSPRKSemiImplicit.start_frac.getD 2 0)) := by
  constructor
  · norm_num [coupledSSPRKSync.stage_w, coupledSSPRKSync.dt_frac,
      coupledSSPRKSync.start_frac, List.range']
  · norm_num [coupledSSPRKSemiImplicit.stage_w, coupledSSPRKSemiImplicit.dt_frac,
      coupledSSPRKSemiImplicit.start_frac, List.range']

/-- Sequencing after a non-raising body appends events and keeps the
second body's error. -/
theorem seq_mk_none (es : List Event) (b : PRes) :
    PRes.seq ⟨es, none⟩ b = ⟨es ++ b.events, b.err⟩ := rfl

/-- Sequencing after a raising body discards the second body. -/
theorem seq_mk_some (es : List Event) (e : PyErr) (b : PRes) :
    PRes.seq ⟨es, some e⟩ b = ⟨es, some e⟩ := rfl

/-- An `if` between two non-raising bodies is a non-raising body. -/
theorem ite_pres (c : Prop) [Decidable c] (l₁ l₂ : List Event) :
    (if c then (⟨l₁, none⟩ : PRes) else ⟨l₂, none⟩) = ⟨if c then l₁ else l₂, none⟩ := by
  split <;> rfl

/-- Nested conditionals over an empty alternative collapse to a
conjunction. -/
theorem ite_prop_and (a b : Prop) [Decidable a] [Decidable b] (l : List Event) :
    (if a then (if b then l else []) else []) = (if a ∧ b then l else []) := by
  by_cases ha : a <;> by_cases hb : b <;> simp [ha, hb]

/-- C2 evaluated against the code: in every invocation where the two
undefined-`t` branches are not enabled, `_updateAllDependencies` performs
exactly the claimed ordered, flag-gated step sequence; but at the failing
input — `doVertDiffusion` set with `options.solveVertDiffusion` enabled —
the pipeline raises `NameError: t` right after the elevation projection,
so the remaining steps of the claimed sequence are never performed. -/
theorem C2_pipeline_order :
    (∀ (fl : DepFlags) (o : Options),
      (fl.doVertDiffusion && o.solveVertDiffusion) = false →
      (fl.doTurbulence && o.useTurbulence) = false →
      coupledTimeIntegrator.updateAllDependencies fl o =
        ⟨specPipelineEvents fl o, none⟩) ∧
    coupledTimeIntegrator.updateAllDependencies ⟨false, true, false, false, false⟩
        ⟨false, true, false, false, false, false, false, false, none, none⟩ =
      ⟨[Event.elev3dProj], some (PyErr.nameError "t")⟩ := by
  constructor
  · intro fl o hvd hturb
    obtain ⟨c2d, vd, ale, stab, turb⟩ := fl
    obtain ⟨aleOpt, svd, bf, pv, bc, ut, lim, ss, smag, sj⟩ := o
    cases vd <;> cases svd <;> cases turb <;> cases ut <;>
      simp_all [coupledTimeIntegrator.updateAllDependencies,
        coupledTimeIntegrator.update3dElevation,
        coupledTimeIntegrator.updateVerticalVelocity,
        coupledTimeIntegrator.updateMovingMesh,
        coupledTimeIntegrator.updateBottomFriction,
        coupledTimeIntegrator.update2DCoupling,
        coupledTimeIntegrator.updateMeshVelocity,
        coupledTimeIntegrator.updateBaroclinicity,
        coupledTimeIntegrator.updateTurbulence,
        coupledTimeIntegrator.vertDiffusionBlock,
        coupledTimeIntegrator.updateStabilizationParams,
        PRes.skip, specPipelineEvents, ite_pres, seq_mk_none, seq_mk_some,
        ite_prop_and, List.append_assoc]
  · rfl

/-- Witness for C2's universally quantified part at a concrete flag tuple
and configuration. -/
theorem C2_pipeline_order_witness :
    coupledTimeIntegrator.updateAllDependencies ⟨true, false, true, true, false⟩
        ⟨true, true, true, true, true, false, true, true, some 1, some 1⟩ =
      ⟨specPipelineEvents ⟨true, false, true, true, false⟩
        ⟨true, true, true, true, true, false, true, true, some 1, some 1⟩, none⟩ :=
  C2_pipeline_order.1 _ _ rfl rfl

/-- C10: the dependency pipeline raises the `NameError` on the undefined
time variable `t` exactly when `doVertDiffusion` is requested with
vertical diffusion enabled or `doTurbulence` is requested with turbulence
enabled, and completes without error otherwise. -/
theorem C10_pipeline_name_error (fl : DepFlags) (o : Options) :
    (coupledTimeIntegrator.updateAllDependencies fl o).err =
      (if (fl.doVertDiffusion && o.solveVertDiffusion) ||
          (fl.doTurbulence && o.useTurbulence)
       then some (PyErr.nameError "t") else none) := by
  obtain ⟨c2d, vd, ale, stab, turb⟩ := fl
  obtain ⟨aleOpt, svd, bf, pv, bc, ut, lim, ss, smag, sj⟩ := o
  cases vd <;> cases svd <;> cases turb <;> cases ut <;>
    simp [coupledTimeIntegrator.updateAllDependencies,
      coupledTimeIntegrator.update3dElevation,
      coupledTimeIntegrator.updateVerticalVelocity,
      coupledTimeIntegrator.updateMovingMesh,
      coupledTimeIntegrator.updateBottomFriction,
      coupledTimeIntegrator.update2DCoupling,
      coupledTimeIntegrator.updateMeshVelocity,
      coupledTimeIntegrator.updateBaroclinicity,
      coupledTimeIntegrator.updateTurbulence,
      coupledTimeIntegrator.vertDiffusionBlock,
      coupledTimeIntegrator.updateStabilizationParams,
      PRes.skip, ite_pres, seq_mk_none, seq_mk_some]

/-- C5 fails on the code: in the SSP-IMEX recipe's per-stage turbulence
update (with turbulence enabled and no limiter), the trace is
psi advance, tke advance, post-processing, pre-processing — so no
pre-processing precedes the psi advance within the update. -/
theorem C5_turbulence_counterexample :
    coupledSSPIMEX.turbulenceStage
        ⟨false, false, false, false, false, true, false, false, none, none⟩ =
      [Event.psiSolve, Event.tkeSolve, Event.postprocess, Event.preprocess] ∧
    ¬ ((coupledSSPIMEX.turbulenceStage
          ⟨false, false, false, false, false, true, false, false, none, none⟩).indexOf
            Event.preprocess <
        (coupledSSPIMEX.turbulenceStage
          ⟨false, false, false, false, false, true, false, false, none, none⟩).indexOf
            Event.psiSolve) := by
  decide

/-- C5 (amended): whenever turbulence is enabled, the SSP-IMEX per-stage
turbulence update advances psi before tke and runs post-processing after
both advances, with pre-processing executed last (after post-processing,
for the next stage) rather than before the advances; the base pipeline's
`_updateTurbulence` executes pre-processing first and then faults on the
undefined name `t` before either quantity is advanced. -/
theorem C5_turbulence_order :
    (∀ o : Options, o.useTurbulence = true →
      ((coupledSSPIMEX.turbulenceStage o).indexOf Event.psiSolve <
        (coupledSSPIMEX.turbulenceStage o).indexOf Event.tkeSolve ∧
       (coupledSSPIMEX.turbulenceStage o).indexOf Event.tkeSolve <
        (coupledSSPIMEX.turbulenceStage o).indexOf Event.postprocess ∧
       (coupledSSPIMEX.turbulenceStage o).indexOf Event.postprocess <
        (coupledSSPIMEX.turbulenceStage o).indexOf Event.preprocess)) ∧
    (∀ o : Options, o.useTurbulence = true →
      coupledTimeIntegrator.updateTurbulence o =
        ⟨[Event.preprocess], some (PyErr.nameError "t")⟩) := by
  constructor
  · intro o
    obtain ⟨aleOpt, svd, bf, pv, bc, ut, lim, ss, smag, sj⟩ := o
    intro h
    cases ut
    · simp at h
    · cases lim <;> exact of_decide_eq_true rfl
  · intro o h
    simp [coupledTimeIntegrator.updateTurbulence, h]

/-- Witness for C5's amended claim at a concrete turbulent configuration
(with the tracer limiter enabled). -/
theorem C5_turbulence_order_witness :
    ((coupledSSPIMEX.turbulenceStage
        ⟨false, false, false, false, false, true, true, false, none, none⟩).indexOf
          Event.psiSolve <
      (coupledSSPIMEX.turbulenceStage
        ⟨false, false, false, false, false, true, true, false, none, none⟩).indexOf
          Event.tkeSolve) ∧
    coupledTimeIntegrator.updateTurbulence
        ⟨false, false, false, false, false, true, true, false, none, none⟩ =
      ⟨[Event.preprocess], some (PyErr.nameError "t")⟩ :=
  ⟨(C5_turbulence_order.1 _ rfl).1, C5_turbulence_order.2 _ rfl⟩

/-- C6: requesting a vertical-momentum (vertical-diffusion) equation makes
the SSP-IMEX constructor raise at construction time, and every pipeline
invocation performed by `coupledSSPIMEX.advance` passes
`doVertDiffusion = False` (and leaves `doTurbulence` at `False`), with
`do2DCoupling`, `doALEUpdate` and `doStabParams` true exactly on the last
stage. -/
theorem C6_sspimex_guard :
    (∀ o : Options, o.solveVertDiffusion = true →
      coupledSSPIMEX.init o =
        .error (.exception "vert mom eq should not exist for this time integrator")) ∧
    (∀ n k : ℕ, k < n →
      ((coupledSSPIMEX.advancePipelineCalls n).getD k {}).doVertDiffusion = false ∧
      ((coupledSSPIMEX.advancePipelineCalls n).getD k {}).doTurbulence = false ∧
      (((coupledSSPIMEX.advancePipelineCalls n).getD k {}).do2DCoupling = true ↔
        k = n - 1) ∧
      (((coupledSSPIMEX.advancePipelineCalls n).getD k {}).doALEUpdate = true ↔
        k = n - 1) ∧
      (((coupledSSPIMEX.advancePipelineCalls n).getD k {}).doStabParams = true ↔
        k = n - 1)) := by
  constructor
  · intro o h
    simp [coupledSSPIMEX.init, h]
  · intro n k hk
    have hlen : k < (coupledSSPIMEX.advancePipelineCalls n).length := by
      simpa [coupledSSPIMEX.advancePipelineCalls] using hk
    have hget : (coupledSSPIMEX.advancePipelineCalls n).getD k {} =
        coupledSSPIMEX.pipelineFlags n k := by
      rw [List.getD_eq_getElem _ _ hlen]
      simp [coupledSSPIMEX.advancePipelineCalls]
    rw [hget]
    refine ⟨rfl, rfl, ?_, ?_, ?_⟩ <;> simp [coupledSSPIMEX.pipelineFlags]

/-- Witness for C6 at a concrete configuration and a concrete two-stage
scheme. -/
theorem C6_sspimex_guard_witness :
    coupledSSPIMEX.init ⟨false, true, false, false, false, false, false, false, none, none⟩ =
      .error (.exception "vert mom eq should not exist for this time integrator") ∧
    ((coupledSSPIMEX.advancePipelineCalls 2).getD 1 {}).doVertDiffusion = false ∧
    (((coupledSSPIMEX.advancePipelineCalls 2).getD 1 {}).do2DCoupling = true ↔ 1 = 2 - 1) :=
  ⟨C6_sspimex_guard.1 _ rfl, (C6_sspimex_guard.2 2 1 (by norm_num)).1,
   (C6_sspimex_guard.2 2 1 (by norm_num)).2.2.1⟩

/-- C7: for every coupled recipe and either spec-modelled behaviour of the
missing single-equation steppers, calling `advance` before `initialize`
either auto-initializes the recipe or fails; no recipe's `advance`
silently completes a solve on uninitialized state. -/
theorem C7_no_silent_uninit_advance (r : Recipe) (p : StepperPolicy) :
    advanceBeforeInit r p ≠ UninitAdvanceOutcome.ranUninitialized := by
  cases r <;> cases p <;> decide

/-- C8 evaluated against the code: with a Lax-Friedrichs factor supplied
but neither a velocity-magnitude field nor a P1 velocity field, the
momentum horizontal-advection form is assembled without any
Lax-Friedrichs stabilization term and without raising; in fact no input
whatsoever makes `horizontal_advection` raise — the
`either uv_p1 or uv_mag must be given` branch is unreachable because the
guard of the stabilization block already requires `uv_mag`. -/
theorem C8_lax_friedrichs_dead_raise :
    momentum_eq.horizontal_advection ⟨true, true, true, []⟩ (some 1) none none =
      .ok [.interiorAdvection, .interfaceFlux, .surfBottomFlux] ∧
    ∀ (cfg : momentum_eq.Config) (lff uv_mag uv_p1 : Option ℚ) (e : PyErr),
      momentum_eq.horizontal_advection cfg lff uv_mag uv_p1 ≠ .error e := by
  constructor
  · rfl
  · rintro ⟨nl, bp, dg, bm⟩ lff mag p1 e
    cases nl <;> cases bp <;> cases dg <;>
      rcases lff with _ | a <;> rcases mag with _ | b <;> rcases p1 with _ | c <;>
      simp [momentum_eq.horizontal_advection, momentum_eq.lf_interior, Except.map]

/-- C9: every call of `ForwardEuler.advance` raises `NameError: dt` (the
name `dt` is bound neither in the method's scope nor at module level),
before the forcing callback is invoked and before the lagged solution or
any field is modified, leaving the stepper's state unchanged. -/
theorem C9_forward_euler_name_error (solveResult : ℚ)
    (st : ForwardEuler.State) (t : ℚ) :
    ForwardEuler.advance solveResult st t =
      (Except.error (PyErr.nameError "dt"), st, []) := rfl
